import Mathlib

/-!
Verification of the scoring and signal-aggregation engine of the
notion-intel-scanner repository against its natural-language specification.

The JavaScript source (src/trend-monitor.js and the sentiment module) is
shallowly embedded below: pure functions become Lean functions over exact
arithmetic (`ℚ`, and `ℝ` for the exponential recency decay), the per-monitor
score history becomes an explicit `Option ℚ` value, and JavaScript `NaN`
propagation is represented by `Option ℝ` with `none` standing for `NaN`.
`Math.round` is modelled exactly (round half toward positive infinity).
-/

namespace TrendMonitor

/-- Model of JavaScript `Math.round`: rounds half toward positive infinity,
which on the rationals is `⌊q + 1/2⌋`. -/
def jsRound (q : ℚ) : ℤ := ⌊q + 1/2⌋

/-- Model of `Math.min(100, Math.max(0, n))` on an integer result. -/
def clampInt (n : ℤ) : ℤ := min 100 (max 0 n)

/-- Model of `Math.min(100, Math.max(0, x))` on a rational intermediate. -/
def clampQ (x : ℚ) : ℚ := min 100 (max 0 x)

/-! ## Recency Weighter (src/trend-monitor.js, calculateRecencyWeight)

The JS function receives `pubDate`.  Three input classes matter: a falsy
value (absent / empty string), a non-empty string that `new Date` cannot
parse (yielding an Invalid Date, whose arithmetic produces `NaN`), and a
parseable timestamp, which we represent by its age in days,
`(now - articleDate) / 86400000` - a real number, negative for future dates.
JavaScript `NaN` is modelled as `none : Option ℝ`. -/

/-- Input classes of `calculateRecencyWeight`. -/
inductive PubDate where
  | missing
  | unparseable
  | age (days : ℝ)

/-- Constant `RECENCY_HALF_LIFE_DAYS = 3` from src/trend-monitor.js. -/
def RECENCY_HALF_LIFE_DAYS : ℝ := 3

/-- The decay applied to a parsed timestamp of age `d` days:
`Math.pow(2, -daysDiff / RECENCY_HALF_LIFE_DAYS)`. -/
noncomputable def recencyOfDays (d : ℝ) : ℝ :=
  (2 : ℝ) ^ (-d / RECENCY_HALF_LIFE_DAYS)

/-- Embedding of `calculateRecencyWeight`.  Only a falsy `pubDate` takes the
`return 0.5` branch; an unparseable non-empty string flows on to
`new Date(pubDate)`, the subtraction yields `NaN`, and `Math.pow(2, NaN)`
is `NaN` (modelled by mapping over `none`). -/
noncomputable def calculateRecencyWeight (p : PubDate) : Option ℝ :=
  match p with
  | .missing => some (1 / 2)
  | .unparseable => (none : Option ℝ).map recencyOfDays
  | .age d => (some d).map recencyOfDays

/-! ## Sentiment Scorer (sentiment module, calculateSentiment /
calculateArticleSentiment) -/

/-- The AFINN word list transcribed from the sentiment module. -/
def AFINN_WORDS : List (String × ℤ) := [
  ("outstanding", 5),  ("superb", 5),  ("breathtaking", 5),  ("thrilled", 5),
  ("excellent", 4),  ("amazing", 4),  ("awesome", 4),  ("fantastic", 4),
  ("incredible", 4),  ("wonderful", 4),  ("brilliant", 4),  ("exceptional", 4),
  ("love", 4),  ("loved", 4),  ("great", 3),  ("good", 3),
  ("best", 3),  ("happy", 3),  ("success", 3),  ("successful", 3),
  ("win", 3),  ("winner", 3),  ("winning", 3),  ("perfect", 3),
  ("beautiful", 3),  ("exciting", 3),  ("excited", 3),  ("impressive", 3),
  ("remarkable", 3),  ("positive", 2),  ("nice", 2),  ("helpful", 2),
  ("useful", 2),  ("easy", 2),  ("improve", 2),  ("improved", 2),
  ("improvement", 2),  ("benefit", 2),  ("benefits", 2),  ("effective", 2),
  ("efficient", 2),  ("growth", 2),  ("growing", 2),  ("gains", 2),
  ("boost", 2),  ("boosted", 2),  ("strong", 2),  ("stronger", 2),
  ("recover", 2),  ("recovery", 2),  ("stable", 2),  ("steady", 2),
  ("secure", 2),  ("safe", 2),  ("opportunity", 2),  ("opportunities", 2),
  ("promising", 2),  ("progress", 2),  ("advance", 2),  ("advanced", 2),
  ("innovation", 2),  ("innovative", 2),  ("ok", 1),  ("okay", 1),
  ("fine", 1),  ("interesting", 1),  ("like", 1),  ("support", 1),
  ("supported", 1),  ("agree", 1),  ("agreed", 1),  ("calm", 1),
  ("clear", 1),  ("confident", 1),  ("correct", 1),  ("fair", 1),
  ("concern", -1),  ("concerns", -1),  ("concerned", -1),  ("difficult", -1),
  ("issue", -1),  ("issues", -1),  ("problem", -1),  ("problems", -1),
  ("question", -1),  ("questions", -1),  ("risk", -1),  ("risks", -1),
  ("risky", -1),  ("slow", -1),  ("slower", -1),  ("uncertain", -1),
  ("uncertainty", -1),  ("unclear", -1),  ("unknown", -1),  ("weak", -1),
  ("weaker", -1),  ("decline", -1),  ("declining", -1),  ("drop", -1),
  ("dropped", -1),  ("bad", -3),  ("worse", -3),  ("poor", -3),
  ("fail", -3),  ("failed", -3),  ("failure", -3),  ("wrong", -3),
  ("negative", -3),  ("loss", -3),  ("losses", -3),  ("lost", -3),
  ("crash", -3),  ("crashed", -3),  ("crisis", -3),  ("danger", -3),
  ("dangerous", -3),  ("fear", -3),  ("fears", -3),  ("worried", -3),
  ("worry", -3),  ("alarming", -3),  ("angry", -2),  ("anger", -2),
  ("blame", -2),  ("blamed", -2),  ("damage", -2),  ("damaged", -2),
  ("delay", -2),  ("delayed", -2),  ("disappointing", -2),  ("disappointed", -2),
  ("doubt", -2),  ("doubts", -2),  ("fall", -2),  ("fallen", -2),
  ("guilty", -2),  ("harm", -2),  ("harmful", -2),  ("hurt", -2),
  ("mistake", -2),  ("mistakes", -2),  ("painful", -2),  ("reject", -2),
  ("rejected", -2),  ("struggle", -2),  ("struggling", -2),  ("threat", -2),
  ("threats", -2),  ("trouble", -2),  ("troubled", -2),  ("warning", -2),
  ("warnings", -2),  ("terrible", -4),  ("horrible", -4),  ("awful", -4),
  ("worst", -4),  ("disaster", -4),  ("catastrophe", -4),  ("catastrophic", -4),
  ("devastating", -4),  ("tragic", -4),  ("tragedy", -4),  ("death", -4),
  ("dead", -4),  ("kill", -4),  ("killed", -4),  ("murder", -5),
  ("murdered", -5),  ("attack", -4),  ("attacked", -4),  ("violent", -4),
  ("violence", -4),  ("war", -4),  ("terror", -5),  ("terrorist", -5),
  ("terrorism", -5),  ("fraud", -4),  ("scam", -4),  ("scandal", -4),
  ("corrupt", -4),  ("corruption", -4),  ("bankrupt", -4),  ("bankruptcy", -4),
  ("collapse", -4),  ("collapsed", -4)]

/-- The apostrophe character (retained by the sentiment tokenizer). -/
def apostChar : Char := Char.ofNat 39

/-- Characters the regex `[^\w\s'-]` does NOT replace: word characters,
whitespace, apostrophe and hyphen (input is already lowercased). -/
def isSentKeepChar (c : Char) : Bool :=
  (decide (97 ≤ c.toNat) && decide (c.toNat ≤ 122)) ||
  (decide (48 ≤ c.toNat) && decide (c.toNat ≤ 57)) ||
  c == '_' || c == apostChar || c == '-' || c.isWhitespace

/-- Kernel-friendly model of JS `toLowerCase` (ASCII text assumed, where
JS `toLowerCase` agrees with `Char.toLower`). -/
def strLower (s : String) : String := String.mk (s.toList.map Char.toLower)

/-- Sentiment tokenizer: lowercase, replace every non-kept character with a
space, split on whitespace, keep nonempty tokens. -/
def sentTokens (s : String) : List String :=
  let cleaned := (s.toList.map Char.toLower).map (fun c => if isSentKeepChar c then c else ' ')
  ((cleaned.splitOnP (fun c => c.isWhitespace)).filter (fun w => w ≠ [])).map
    (fun w => String.mk w)

/-- Input of `calculateSentiment`: either a non-string JavaScript value or a
string. -/
inductive SentInput where
  | nonString
  | str (s : String)

/-- Embedding of `calculateSentiment` from the sentiment module. -/
def calculateSentiment : SentInput → ℤ
  | .nonString => 50
  | .str s =>
    let words := sentTokens s
    if words = [] then 50
    else
      let matched := words.filterMap (fun w => AFINN_WORDS.lookup w)
      if matched = [] then 50
      else
        min 100 (max 0 (jsRound (50 + ((matched.sum : ℚ) / (words.length : ℚ)) * 10)))

/-- An article as seen by the batch sentiment function; `title` models
`article.title || article.name || ''` (empty string when absent). -/
structure SArticle where
  title : String
deriving DecidableEq

/-- Result shape of `calculateArticleSentiment`. -/
structure SentimentResult where
  score : ℤ
  classification : String
  articlesAnalyzed : ℕ
deriving DecidableEq

/-- Classification breakpoints used by `calculateArticleSentiment`. -/
def classifySentiment (s : ℤ) : String :=
  if s ≤ 30 then "Negative"
  else if s ≤ 45 then "Somewhat Negative"
  else if s ≤ 55 then "Neutral"
  else if s ≤ 70 then "Somewhat Positive"
  else "Positive"

/-- Embedding of `calculateArticleSentiment`: articles with an empty title are
skipped (`if (title)`), the remaining scores are averaged and rounded. -/
def calculateArticleSentiment (articles : List SArticle) : SentimentResult :=
  if articles = [] then ⟨50, "Neutral", 0⟩
  else
    let titles := (articles.map (fun a => a.title)).filter (fun t => t ≠ "")
    if titles = [] then ⟨50, "Neutral", 0⟩
    else
      let avg := jsRound
        (((titles.map (fun t => calculateSentiment (.str t))).sum : ℚ) /
          (titles.length : ℚ))
      ⟨avg, classifySentiment avg, titles.length⟩

/-! ## Trend Score Engine (src/trend-monitor.js, calculateTrendScoreV2)

The per-monitor score history (`scoreHistory` map) is modelled as an explicit
`Option ℚ` argument (`none` when the monitor has no stored entry), and the
five independently computed factor scores are parameters: claims C1 and C3
concern the scoring tail of `calculateTrendScoreV2`, which consumes the
factors.  `getPreviousScore` returns `scoreHistory.get(id) || null`, so a
stored 0 becomes `null`; the engine then applies `|| 50`. -/

/-- Constant `EMA_ALPHA = 0.3` from src/trend-monitor.js. -/
def EMA_ALPHA : ℚ := 3 / 10

/-- Embedding of `getPreviousScore`: `scoreHistory.get(monitorId) || null`
(a stored falsy value, i.e. 0, yields `null`). -/
def getPreviousScore (hist : Option ℚ) : Option ℚ :=
  match hist with
  | some p => if p = 0 then none else some p
  | none => none

/-- Embedding of `applyEMASmoothing` (which checks the raw map entry against
`undefined`, NOT falsiness: a stored 0 is smoothed against). -/
def applyEMASmoothing (newScore : ℤ) (hist : Option ℚ) : ℤ :=
  match hist with
  | none => newScore
  | some p => jsRound (EMA_ALPHA * newScore + (1 - EMA_ALPHA) * p)

/-- Output of one scoring pass (the score-related fields of the object
returned by `calculateTrendScoreV2`, plus the value written back to
`scoreHistory`). -/
structure TrendPassResult where
  rawScore : ℤ
  smoothedScore : ℤ
  velocity : ℚ
  trendScore : ℤ
  changePercent : ℤ
  newHistory : ℤ
deriving DecidableEq

/-- Embedding of the scoring tail of `calculateTrendScoreV2`: raw score with
the velocity slot held at 50, EMA smoothing, velocity from the smoothed
score against `previousScore = getPreviousScore(monitorId) || 50`, final
weighted score, clamping, and change percent. -/
def trendScorePass (relevance authority recency momentum sentiment : ℚ)
    (hist : Option ℚ) : TrendPassResult :=
  let previousScore : ℚ := (getPreviousScore hist).getD 50
  let rawScore : ℤ := jsRound (20/100 * relevance + 15/100 * authority +
    15/100 * recency + 20/100 * momentum + 10/100 * sentiment + 20/100 * 50)
  let smoothedScore : ℤ := applyEMASmoothing rawScore hist
  let velocityScore : ℚ :=
    if previousScore > 0 then
      50 + (((smoothedScore : ℚ) - previousScore) / previousScore) * 50
    else 50
  let clampedVelocity : ℚ := clampQ velocityScore
  let finalScore : ℤ := jsRound (20/100 * clampedVelocity + 20/100 * relevance +
    15/100 * authority + 15/100 * recency + 20/100 * momentum + 10/100 * sentiment)
  let clampedFinalScore : ℤ := clampInt finalScore
  let changePercent : ℤ :=
    if previousScore > 0 then
      jsRound ((((clampedFinalScore : ℚ) - previousScore) / previousScore) * 100)
    else 0
  ⟨rawScore, smoothedScore, clampedVelocity, clampedFinalScore, changePercent,
    smoothedScore⟩

/-! ## Source data model shared by the coherence and confidence scorers -/

/-- A matching trend entry (only its recency weight is consumed). -/
structure TrendItem where
  recencyWeight : ℚ
deriving DecidableEq

/-- A region entry of `googleTrends.regionData`. -/
structure RegionEntry where
  matchCount : ℕ
deriving DecidableEq

/-- The `googleTrends` input object; `Option` fields model possibly-undefined
JS properties. -/
structure GoogleTrendsData where
  hasMatches : Option Bool
  matchingTrends : Option (List TrendItem)
  allTrends : Option (List TrendItem)
  regionData : Option (List RegionEntry)
deriving DecidableEq

/-- One per-term result of a list-shaped source (news/social feeds). -/
structure TermResult where
  totalResults : ℕ
  weightedCount : ℚ
deriving DecidableEq

/-- The `additionalRss` input object. -/
structure AdditionalRssData where
  totalMatches : ℕ
deriving DecidableEq

/-- The seven per-source inputs handed to the scorers (an absent source is
`none` / the empty list, which the JS guards treat identically). -/
structure Sources where
  googleTrends : Option GoogleTrendsData
  googleNewsRss : List TermResult
  newsData : List TermResult
  serpResults : List TermResult
  reddit : List TermResult
  hackerNews : List TermResult
  additionalRss : Option AdditionalRssData
deriving DecidableEq

/-- Reliability/weight constants (`SOURCE_WEIGHTS` in src/trend-monitor.js). -/
structure SourceWeight where
  reliability : ℚ
  weight : ℚ

/-- `SOURCE_WEIGHTS.googleTrends`. -/
def SW_googleTrends : SourceWeight := ⟨85/100, 14/100⟩

/-- `SOURCE_WEIGHTS.googleNewsRss`. -/
def SW_googleNewsRss : SourceWeight := ⟨80/100, 14/100⟩

/-- `SOURCE_WEIGHTS.newsData`. -/
def SW_newsData : SourceWeight := ⟨80/100, 14/100⟩

/-- `SOURCE_WEIGHTS.serpApi`. -/
def SW_serpApi : SourceWeight := ⟨90/100, 14/100⟩

/-- `SOURCE_WEIGHTS.hackerNews`. -/
def SW_hackerNews : SourceWeight := ⟨85/100, 14/100⟩

/-- `SOURCE_WEIGHTS.reddit`. -/
def SW_reddit : SourceWeight := ⟨70/100, 10/100⟩

/-- `SOURCE_WEIGHTS.additionalRss`. -/
def SW_additionalRss : SourceWeight := ⟨80/100, 20/100⟩

/-- `GOOGLE_TRENDS_REGIONS` from src/trend-monitor.js. -/
def GOOGLE_TRENDS_REGIONS : List String := ["US", "GB", "CA", "AU"]

/-! ## Confidence Scorer (src/trend-monitor.js, calculateConfidenceV2) -/

/-- `maxDataPoints = 7` inside `calculateConfidenceV2`. -/
def maxDataPoints : ℕ := 7

/-- Guard for the googleTrends contribution:
`googleTrends && googleTrends.allTrends?.length > 0`. -/
def gtHasData (s : Sources) : Bool :=
  match s.googleTrends with
  | some gt => decide (0 < (gt.allTrends.getD []).length)
  | none => false

/-- Guard for a list-shaped source:
`list && list.length > 0 && list.some(r => r.totalResults > 0)`. -/
def listHasData (l : List TermResult) : Bool :=
  decide (l ≠ []) && l.any (fun r => decide (0 < r.totalResults))

/-- Guard for the additionalRss contribution:
`additionalRss && additionalRss.totalMatches > 0`. -/
def rssHasData (s : Sources) : Bool :=
  match s.additionalRss with
  | some a => decide (0 < a.totalMatches)
  | none => false

/-- `dataPoints` as accumulated by `calculateConfidenceV2`. -/
def confidenceDataPoints (s : Sources) : ℕ :=
  (if gtHasData s then 1 else 0) +
  (if listHasData s.googleNewsRss then 1 else 0) +
  (if listHasData s.newsData then 1 else 0) +
  (if listHasData s.serpResults then 1 else 0) +
  (if listHasData s.reddit then 1 else 0) +
  (if listHasData s.hackerNews then 1 else 0) +
  (if rssHasData s then 1 else 0)

/-- `baseConfidence` as accumulated by `calculateConfidenceV2`. -/
def baseConfidence (s : Sources) : ℚ :=
  (if gtHasData s then SW_googleTrends.reliability * SW_googleTrends.weight else 0) +
  (if listHasData s.googleNewsRss then SW_googleNewsRss.reliability * SW_googleNewsRss.weight else 0) +
  (if listHasData s.newsData then SW_newsData.reliability * SW_newsData.weight else 0) +
  (if listHasData s.serpResults then SW_serpApi.reliability * SW_serpApi.weight else 0) +
  (if listHasData s.reddit then SW_reddit.reliability * SW_reddit.weight else 0) +
  (if listHasData s.hackerNews then SW_hackerNews.reliability * SW_hackerNews.weight else 0) +
  (if rssHasData s then SW_additionalRss.reliability * SW_additionalRss.weight else 0)

/-- `0.4 + 0.6 * (dataPoints / maxDataPoints)`. -/
def freshnessMultiplier (dataPoints : ℕ) : ℚ :=
  4/10 + 6/10 * ((dataPoints : ℚ) / (maxDataPoints : ℚ))

/-- `0.3 + 0.7 * Math.min(1, dataPoints / maxDataPoints)`. -/
def sampleSizeMultiplier (dataPoints : ℕ) : ℚ :=
  3/10 + 7/10 * min 1 ((dataPoints : ℚ) / (maxDataPoints : ℚ))

/-- `0.75 + 0.40 * (coherenceScore / 100)`. -/
def agreementMultiplier (coherenceScore : ℚ) : ℚ :=
  75/100 + 40/100 * (coherenceScore / 100)

/-- Result shape of `calculateConfidenceV2`; the reported factor fields carry
the two-decimal rounding `Math.round(x * 100) / 100` applied on return. -/
structure ConfidenceResult where
  confidence : ℤ
  dataPoints : ℕ
  freshnessReported : ℚ
  sampleSizeReported : ℚ
  agreementReported : ℚ
deriving DecidableEq

/-- Embedding of `calculateConfidenceV2`. -/
def calculateConfidenceV2 (s : Sources) (coherenceScore : ℚ) : ConfidenceResult :=
  let dp := confidenceDataPoints s
  let confidence : ℚ := baseConfidence s * freshnessMultiplier dp *
    sampleSizeMultiplier dp * agreementMultiplier coherenceScore
  let clamped : ℚ := min (98/100) (max (10/100) confidence)
  ⟨jsRound (clamped * 100), dp,
    (jsRound (freshnessMultiplier dp * 100) : ℚ) / 100,
    (jsRound (sampleSizeMultiplier dp * 100) : ℚ) / 100,
    (jsRound (agreementMultiplier coherenceScore * 100) : ℚ) / 100⟩

/-! ## Coherence Scorer (src/trend-monitor.js, calculateCoherenceScore) -/

/-- One element of the `sourceSignals` array. -/
structure Signal where
  hasSignal : Bool
  magnitude : ℕ
  termCoverage : Option ℚ
deriving DecidableEq

/-- Signal for a list-shaped source (collected when the list is nonempty). -/
def listSignal (l : List TermResult) : List Signal :=
  if l = [] then []
  else
    [⟨decide (0 < (l.map (fun r => r.totalResults)).sum),
      (l.map (fun r => r.totalResults)).sum,
      some (((l.filter (fun r => decide (0 < r.totalResults))).length : ℚ) /
        (l.length : ℚ))⟩]

/-- The `sourceSignals` array of `calculateCoherenceScore`.  googleTrends is
collected when `hasMatches !== undefined`; list sources when nonempty;
additionalRss when `totalMatches > 0`. -/
def sourceSignals (s : Sources) : List Signal :=
  (match s.googleTrends with
   | some gt =>
     match gt.hasMatches with
     | some b => [⟨b, (gt.matchingTrends.getD []).length, none⟩]
     | none => []
   | none => []) ++
  listSignal s.googleNewsRss ++ listSignal s.newsData ++
  listSignal s.serpResults ++ listSignal s.reddit ++ listSignal s.hackerNews ++
  (match s.additionalRss with
   | some a => if 0 < a.totalMatches then [⟨decide (0 < a.totalMatches), a.totalMatches, some 1⟩] else []
   | none => [])

/-- Direction Agreement: fraction of signals reporting `hasSignal`, times 100. -/
def directionAgreementOf (sigs : List Signal) : ℚ :=
  if 0 < sigs.length then
    ((sigs.filter (fun g => g.hasSignal)).length : ℚ) / (sigs.length : ℚ) * 100
  else 0

/-- Magnitude Consistency: `min/max * 100` with at least two signals, else 50;
0 when the maximum magnitude is 0. -/
def magnitudeConsistencyOf (sigs : List Signal) : ℚ :=
  if 2 ≤ sigs.length then
    let mags := sigs.map (fun g => g.magnitude)
    let maxMag := (mags.max?).getD 0
    let minMag := (mags.min?).getD 0
    if 0 < maxMag then (minMag : ℚ) / (maxMag : ℚ) * 100 else 0
  else 50

/-- Temporal Consistency: average recency weight (a falsy, i.e. zero, weight
defaults to 0.5) of googleTrends matching trends, times 100; else 50. -/
def temporalConsistencyOf (s : Sources) : ℚ :=
  match s.googleTrends with
  | some gt =>
    let mt := gt.matchingTrends.getD []
    if 0 < mt.length then
      ((mt.map (fun t => if t.recencyWeight = 0 then 1/2 else t.recencyWeight)).sum /
        (mt.length : ℚ)) * 100
    else 50
  | none => 50

/-- Term Correlation: mean term coverage when any signal exposes one, else the
googleTrends region-agreement proxy, else 50. -/
def termCorrelationOf (s : Sources) (sigs : List Signal) : ℚ :=
  let covs := sigs.filterMap (fun g => g.termCoverage)
  if 0 < covs.length then (covs.sum / (covs.length : ℚ)) * 100
  else
    match s.googleTrends with
    | some gt =>
      match gt.regionData with
      | some rd =>
        (((rd.filter (fun r => decide (0 < r.matchCount))).length : ℚ) /
          (GOOGLE_TRENDS_REGIONS.length : ℚ)) * 100
      | none => 50
    | none => 50

/-- The reported (rounded) coherence factor block. -/
structure CoherenceFactors where
  directionAgreement : ℤ
  magnitudeConsistency : ℤ
  temporalConsistency : ℤ
  termCorrelation : ℤ
deriving DecidableEq

/-- Result shape of `calculateCoherenceScore`; `factors = none` models the
empty `{}` factor object of the zero-source edge case. -/
structure CoherenceResult where
  coherenceScore : ℤ
  coherenceLevel : String
  factors : Option CoherenceFactors
deriving DecidableEq

/-- Embedding of `calculateCoherenceScore`. -/
def calculateCoherenceScore (s : Sources) : CoherenceResult :=
  let sigs := sourceSignals s
  if sigs = [] then ⟨0, "Noise", none⟩
  else
    let da := directionAgreementOf sigs
    let mc := magnitudeConsistencyOf sigs
    let tc := temporalConsistencyOf s
    let tcorr := termCorrelationOf s sigs
    let score := jsRound (30/100 * da + 25/100 * mc + 25/100 * tc + 20/100 * tcorr)
    let level := if 75 ≤ score then "High"
      else if 50 ≤ score then "Medium"
      else if 25 ≤ score then "Low"
      else "Noise"
    ⟨clampInt score, level, some ⟨jsRound da, jsRound mc, jsRound tc, jsRound tcorr⟩⟩

/-! ## Article Deduplicator (src/trend-monitor.js, normalizeUrl /
calculateTitleSimilarity / deduplicateArticles)

A URL is modelled as already parsed: a base (scheme, host and path as one
string) plus an ordered query-parameter list; `parsed.toString()` is
serialization of that shape.  `searchParams.delete` removes parameters by
exact (case-sensitive) name; the whole serialized URL is then lowercased. -/

/-- A parsed URL: everything before the query string, plus the query
parameters in order. -/
structure JsUrl where
  base : String
  params : List (String × String)
deriving DecidableEq

/-- Serialization of a parsed URL (`parsed.toString()`). -/
def renderUrl (u : JsUrl) : String :=
  u.base ++ (if u.params = [] then ""
    else "?" ++ String.intercalate "&" (u.params.map (fun kv => kv.1 ++ "=" ++ kv.2)))

/-- The fixed tracking-parameter list of `normalizeUrl`. -/
def trackingParamNames : List String :=
  ["utm_source", "utm_medium", "utm_campaign", "utm_term", "utm_content",
   "ref", "source", "fbclid", "gclid", "msclkid"]

/-- Embedding of `normalizeUrl`: an absent URL yields the empty string;
otherwise delete the named tracking parameters and lowercase the
serialized result. -/
def normalizeUrl : Option JsUrl → String
  | none => ""
  | some u => strLower (renderUrl
      ⟨u.base, u.params.filter (fun kv => !(trackingParamNames.contains kv.1))⟩)

/-- URL normalization as the specification and claim word it, for comparison
against the implementation: strips every query parameter whose name starts
with utm_ as well as ref, source, fbclid, gclid and msclkid.  (The
implementation instead strips only five fixed utm_ parameter names.) -/
def claimedNormalizeUrl : Option JsUrl → String
  | none => ""
  | some u => strLower (renderUrl ⟨u.base, u.params.filter (fun kv =>
      !(("utm_".toList).isPrefixOf kv.1.toList ||
        (["ref", "source", "fbclid", "gclid", "msclkid"] : List String).contains kv.1))⟩)

/-- Characters kept by the title normalizer regex `[^a-z0-9\s]` (deleted,
not replaced by a space) after lowercasing. -/
def isTitleKeepChar (c : Char) : Bool :=
  (decide (97 ≤ c.toNat) && decide (c.toNat ≤ 122)) ||
  (decide (48 ≤ c.toNat) && decide (c.toNat ≤ 57)) || c.isWhitespace

/-- Title tokenizer of `calculateTitleSimilarity`: lowercase, delete
non-alphanumeric non-whitespace characters, split on whitespace, keep
tokens longer than 2 characters. -/
def titleTokens (t : String) : List String :=
  let cleaned := (t.toList.map Char.toLower).filter isTitleKeepChar
  ((cleaned.splitOnP (fun c => c.isWhitespace)).map (fun w => String.mk w)).filter
    (fun w => 2 < w.length)

/-- Embedding of `calculateTitleSimilarity`: Jaccard coefficient of the
title-token sets (token lists are deduplicated to model JS `Set`). -/
def calculateTitleSimilarity (t1 t2 : String) : ℚ :=
  if t1 = "" ∨ t2 = "" then 0
  else
    let words1 := (titleTokens t1).dedup
    let words2 := (titleTokens t2).dedup
    if words1 = [] ∨ words2 = [] then 0
    else
      ((words1.filter (fun w => words2.contains w)).length : ℚ) /
        (((words1 ++ words2).dedup).length : ℚ)

/-- An input article of the deduplicator; `url` models
`article.link || article.url` (`none` when both are absent) and `source`
the originating source name. -/
structure DArticle where
  url : Option JsUrl
  title : String
  source : String
deriving DecidableEq

/-- One surviving output article together with its bookkeeping: the `seen`
map key it registered (when its normalized URL was nonempty) and the
accumulated `sources` union.  The title-similarity group it heads always
compares against its own (first) article title. -/
structure DedupEntry where
  article : DArticle
  key : Option String
  sources : List String
deriving DecidableEq

/-- Union a source name onto an entry:
`if (article.source && !existing.sources.includes(article.source)) push`. -/
def mergeSourcesInto (src : String) (e : DedupEntry) : DedupEntry :=
  if src ≠ "" ∧ ¬ (e.sources.contains src = true) then
    { e with sources := e.sources ++ [src] }
  else e

/-- Update the first entry satisfying `p` (JS merges into the first-seen
matching group / the unique map entry). -/
def updateFirst (p : DedupEntry → Bool) (f : DedupEntry → DedupEntry) :
    List DedupEntry → List DedupEntry
  | [] => []
  | e :: es => if p e then f e :: es else e :: updateFirst p f es

/-- One iteration of the deduplication loop over article `a`. -/
def dedupStep (threshold : ℚ) (entries : List DedupEntry) (a : DArticle) :
    List DedupEntry :=
  let nu := normalizeUrl a.url
  if nu ≠ "" ∧ entries.any (fun e => e.key == some nu) then
    updateFirst (fun e => e.key == some nu) (mergeSourcesInto a.source) entries
  else if entries.any (fun e => decide (threshold ≤ calculateTitleSimilarity a.title e.article.title)) then
    updateFirst (fun e => decide (threshold ≤ calculateTitleSimilarity a.title e.article.title))
      (mergeSourcesInto a.source) entries
  else
    entries ++ [⟨a, if nu = "" then none else some nu, [a.source]⟩]

/-- Result shape of `deduplicateArticles`. -/
structure DedupResult where
  articles : List DedupEntry
  originalCount : ℕ
  deduplicatedCount : ℕ
deriving DecidableEq

/-- Default `similarityThreshold = 0.6` of `deduplicateArticles`. -/
def DEFAULT_SIMILARITY_THRESHOLD : ℚ := 6/10

/-- Embedding of `deduplicateArticles` (the empty-input early return produces
the same value as the general fold). -/
def deduplicateArticles (threshold : ℚ) (articles : List DArticle) : DedupResult :=
  let entries := articles.foldl (dedupStep threshold) []
  ⟨entries, articles.length, entries.length⟩

/-! ## Recommendation Engine (src/trend-monitor.js,
generateActionRecommendations / prioritizeRecommendations) -/

/-- Recommendation priority tiers. -/
inductive RecPriority where
  | high
  | medium
  | low
deriving DecidableEq

/-- A recommendation entry as pushed by `generateActionRecommendations`. -/
structure Rec where
  priority : RecPriority
  text : String
  isModifier : Bool
deriving DecidableEq

/-- A formatted entry as returned by `prioritizeRecommendations`. -/
structure FormattedRec where
  priority : RecPriority
  text : String
  isModifier : Bool
  formattedText : String
deriving DecidableEq

/-- `priorityOrder = { high: 0, medium: 1, low: 2 }`. -/
def priorityOrder : RecPriority → ℕ
  | .high => 0
  | .medium => 1
  | .low => 2

/-- `priorityEmoji = { high: red, medium: yellow, low: green }`. -/
def priorityEmoji : RecPriority → String
  | .high => "🔴"
  | .medium => "🟡"
  | .low => "🟢"

/-- Embedding of `generateActionRecommendations` after its falsy-default
extraction of `trendScore`, `coherenceScore`, `confidence`,
`factors.sentiment` and `monitor.terms[0]`. -/
def generateActionRecommendations
    (trendScore coherence confidence sentiment : ℚ) (term : String) : List Rec :=
  (if 70 < trendScore ∧ 60 < coherence then
    [⟨.high, "Create content about " ++ term ++ " - high trending activity detected", false⟩,
     ⟨.high, "Consider market entry - strong positive signal across sources", false⟩,
     ⟨.high, "Monitor competitor activity - trend gaining momentum", false⟩]
   else if (40 ≤ trendScore ∧ trendScore ≤ 70) ∨ (40 ≤ coherence ∧ coherence ≤ 60) then
    [⟨.medium, "Track this trend - moderate activity detected", false⟩,
     ⟨.medium, "Research deeper - mixed signals need clarification", false⟩,
     ⟨.medium, "Set up alerts - potential emerging opportunity", false⟩]
   else if trendScore < 40 then
    [⟨.low, "Continue monitoring - no significant activity", false⟩,
     ⟨.low, "Review search terms - may need refinement", false⟩,
     ⟨.low, "Check back next cycle - insufficient data", false⟩]
   else []) ++
  (if confidence < 30 then
    [⟨.low, "Low confidence - gather more data before acting", true⟩]
   else if 70 < confidence then
    [⟨.high, "High confidence signal - action recommended", true⟩]
   else []) ++
  (if sentiment < 40 then
    [⟨.medium, "Caution: Negative sentiment detected", true⟩]
   else if 60 < sentiment then
    [⟨.medium, "Positive sentiment - favorable environment", true⟩]
   else [])

/-- The comparator handed to `Array.sort` (ascending `priorityOrder`); the
ECMAScript sort is stable, modelled by `List.mergeSort`. -/
def recLE (a b : Rec) : Bool := decide (priorityOrder a.priority ≤ priorityOrder b.priority)

/-- Embedding of `prioritizeRecommendations`: stable sort by priority, take
the top 3, annotate each with its priority glyph. -/
def prioritizeRecommendations (recs : List Rec) : List FormattedRec :=
  ((recs.mergeSort recLE).take 3).map
    (fun r => ⟨r.priority, r.text, r.isModifier, priorityEmoji r.priority ++ " " ++ r.text⟩)

/-- The top-recommendation selection of `analyzeMonitorTrends`: the first
formatted entry, or the fixed fallback string. -/
def topRecommendationOf (l : List FormattedRec) : String :=
  match l with
  | [] => "No recommendations"
  | r :: _ => r.formattedText

/-! ## Shared helper lemmas -/

/-- The integer clamp stays inside `[0, 100]`. -/
lemma clampInt_bounds (n : ℤ) : 0 ≤ clampInt n ∧ clampInt n ≤ 100 := by
  unfold clampInt; omega

/-- A threshold inside `(0, 100]` passes through the integer clamp. -/
lemma le_clampInt_iff (t n : ℤ) (h0 : 0 < t) (h100 : t ≤ 100) :
    t ≤ clampInt n ↔ t ≤ n := by
  unfold clampInt; omega

/-- The rational clamp stays inside `[0, 100]`. -/
lemma clampQ_bounds (x : ℚ) : 0 ≤ clampQ x ∧ clampQ x ≤ 100 := by
  unfold clampQ
  exact ⟨le_min (by norm_num) (le_max_left 0 x), min_le_left _ _⟩

/-- Undoing the velocity affine map: `50 + ((r - 50) / 50) * 50 = r`. -/
lemma velocity_affine (r : ℚ) : 50 + ((r - 50) / 50) * 50 = r := by ring

/-! ## Claim C8 -/

/-- C8: for every parseable timestamp the recency weight is
`2 ^ (-ageDays / 3)`; it is 1 at age 0, 1/2 at age 3 (the half-life), and
strictly decreasing as the age increases. -/
theorem C8_recency_decay :
    (∀ d : ℝ, calculateRecencyWeight (.age d) = some ((2 : ℝ) ^ (-d / 3))) ∧
    recencyOfDays 0 = 1 ∧
    recencyOfDays 3 = 1 / 2 ∧
    (∀ a b : ℝ, a < b → recencyOfDays b < recencyOfDays a) := by
  refine ⟨fun d => rfl, ?_, ?_, fun a b h => ?_⟩
  · show (2 : ℝ) ^ (-(0 : ℝ) / RECENCY_HALF_LIFE_DAYS) = 1
    rw [show (-(0 : ℝ) / RECENCY_HALF_LIFE_DAYS) = 0 by norm_num [RECENCY_HALF_LIFE_DAYS]]
    exact Real.rpow_zero 2
  · show (2 : ℝ) ^ (-(3 : ℝ) / RECENCY_HALF_LIFE_DAYS) = 1 / 2
    rw [show (-(3 : ℝ) / RECENCY_HALF_LIFE_DAYS) = -1 by norm_num [RECENCY_HALF_LIFE_DAYS]]
    rw [Real.rpow_neg_one]
    norm_num
  · show (2 : ℝ) ^ (-b / RECENCY_HALF_LIFE_DAYS) < (2 : ℝ) ^ (-a / RECENCY_HALF_LIFE_DAYS)
    rw [Real.rpow_lt_rpow_left_iff (by norm_num : (1 : ℝ) < 2)]
    rw [RECENCY_HALF_LIFE_DAYS]
    linarith

/-- C8 witness: the decay strictly decreases from age 2 to age 5. -/
theorem C8_recency_decay_witness : recencyOfDays 5 < recencyOfDays 2 :=
  C8_recency_decay.2.2.2 2 5 (by norm_num)

/-! ## Claim C2 (code bug)

The claim (and spec section 4.1 together with the error-handling contract of
section 7) requires every input, including a non-empty unparseable timestamp
string, to produce a weight in `(0, 1]`, with missing or unparseable input
producing exactly 0.5.  The code only short-circuits falsy input: a
non-empty unparseable string reaches `new Date(...)`, giving an Invalid
Date, a `NaN` age and hence a `NaN` weight; a future timestamp (negative
age) likewise produces a weight above 1.  The theorem below evaluates the
embedded code at those failing inputs. -/

/-- C2: at an unparseable non-empty timestamp the code yields `NaN`
(modelled `none`), not 0.5; and a future timestamp (age -3 days) yields
weight 2, above the claimed upper bound 1.  Missing input does yield 0.5. -/
theorem C2_recency_totality_failure :
    calculateRecencyWeight .unparseable = none ∧
    calculateRecencyWeight .missing = some (1 / 2) ∧
    calculateRecencyWeight (.age (-3)) = some 2 := by
  refine ⟨rfl, rfl, ?_⟩
  show some ((2 : ℝ) ^ (-(-3 : ℝ) / RECENCY_HALF_LIFE_DAYS)) = some 2
  rw [show (-(-3 : ℝ) / RECENCY_HALF_LIFE_DAYS) = 1 by norm_num [RECENCY_HALF_LIFE_DAYS]]
  rw [Real.rpow_one]

/-! ## Claim C3 (corrected)

The claim says velocity defaults to exactly 50 when the previous score is 0
or absent, in particular on a first-ever pass.  In the code
`previousScore = getPreviousScore(monitorId) || 50`, so an absent (or zero)
stored score is replaced by 50 and the velocity formula still runs: on a
first-ever pass `smoothedScore = rawScore` and velocity becomes the raw
score itself (clamped), not 50. -/

/-- C3 counterexample: a first-ever pass (history absent) with all five
factors at 100 has raw score 90 and velocity 90, not 50. -/
theorem C3_velocity_first_pass_counterexample :
    (trendScorePass 100 100 100 100 100 none).velocity = 90 ∧
    ¬ (trendScorePass 100 100 100 100 100 none).velocity = 50 := by
  have h : (trendScorePass 100 100 100 100 100 none).velocity = 90 := by
    norm_num [trendScorePass, getPreviousScore, applyEMASmoothing, clampQ,
      jsRound, Option.getD]
  exact ⟨h, by rw [h]; norm_num⟩

/-- C3 amended: velocity is `50 + ((smoothedScore - previousScore) /
previousScore) * 50` clamped to `[0, 100]`, where `previousScore` is the
stored smoothed score with 50 substituted when it is 0 or absent (and
velocity is 50 if that effective value is not positive); on a first-ever
pass velocity equals the raw score clamped to `[0, 100]`, not 50. -/
theorem C3_velocity_amended (relevance authority recency momentum sentiment : ℚ)
    (hist : Option ℚ) :
    (0 < (getPreviousScore hist).getD 50 →
      (trendScorePass relevance authority recency momentum sentiment hist).velocity =
        clampQ (50 + ((((trendScorePass relevance authority recency momentum sentiment hist).smoothedScore : ℚ) -
          (getPreviousScore hist).getD 50) / (getPreviousScore hist).getD 50) * 50)) ∧
    ((getPreviousScore hist).getD 50 ≤ 0 →
      (trendScorePass relevance authority recency momentum sentiment hist).velocity = 50) ∧
    (0 ≤ (trendScorePass relevance authority recency momentum sentiment hist).velocity ∧
      (trendScorePass relevance authority recency momentum sentiment hist).velocity ≤ 100) ∧
    (hist = none →
      (trendScorePass relevance authority recency momentum sentiment hist).velocity =
        clampQ ((trendScorePass relevance authority recency momentum sentiment hist).rawScore)) := by
  refine ⟨fun h => ?_, fun h => ?_, ?_, fun h => ?_⟩
  · simp only [trendScorePass]
    rw [if_pos h]
  · simp only [trendScorePass]
    rw [if_neg (by exact fun hc => absurd h (not_le.mpr hc))]
    show clampQ 50 = 50
    norm_num [clampQ]
  · exact clampQ_bounds _
  · subst h
    simp only [trendScorePass, getPreviousScore, applyEMASmoothing, Option.getD]
    rw [if_pos (by norm_num : (0 : ℚ) < 50)]
    rw [velocity_affine]

/-- C3 amended witness: with stored history 25 the velocity formula applies
with previousScore 25. -/
theorem C3_velocity_amended_witness :
    (trendScorePass 100 100 100 100 100 (some 25)).velocity =
      clampQ (50 + ((((trendScorePass 100 100 100 100 100 (some 25)).smoothedScore : ℚ) -
        (getPreviousScore (some 25)).getD 50) / (getPreviousScore (some 25)).getD 50) * 50) :=
  (C3_velocity_amended 100 100 100 100 100 (some 25)).1
    (by norm_num [getPreviousScore, Option.getD])

/-! ## Claim C1 -/

/-- C1: one scoring pass computes, in order, the provisional raw score with
the velocity slot held at the neutral 50, then the EMA-smoothed score
(`rawScore` itself when no previous value exists, otherwise
`round(0.3 * rawScore + 0.7 * previous)`), then the final weighted score
clamped to `[0, 100]`, returned as the trend score. -/
theorem C1_trend_pass (relevance authority recency momentum sentiment : ℚ)
    (hist : Option ℚ) :
    (trendScorePass relevance authority recency momentum sentiment hist).rawScore =
      jsRound (20/100 * relevance + 15/100 * authority + 15/100 * recency +
        20/100 * momentum + 10/100 * sentiment + 20/100 * 50) ∧
    (hist = none →
      (trendScorePass relevance authority recency momentum sentiment hist).smoothedScore =
        (trendScorePass relevance authority recency momentum sentiment hist).rawScore) ∧
    (∀ p : ℚ, hist = some p →
      (trendScorePass relevance authority recency momentum sentiment hist).smoothedScore =
        jsRound (3/10 * ((trendScorePass relevance authority recency momentum sentiment hist).rawScore : ℚ) +
          7/10 * p)) ∧
    (trendScorePass relevance authority recency momentum sentiment hist).trendScore =
      clampInt (jsRound (20/100 *
          (trendScorePass relevance authority recency momentum sentiment hist).velocity +
        20/100 * relevance + 15/100 * authority + 15/100 * recency +
        20/100 * momentum + 10/100 * sentiment)) ∧
    0 ≤ (trendScorePass relevance authority recency momentum sentiment hist).trendScore ∧
    (trendScorePass relevance authority recency momentum sentiment hist).trendScore ≤ 100 := by
  refine ⟨rfl, fun h => ?_, fun p h => ?_, rfl, clampInt_bounds _⟩
  · subst h; rfl
  · subst h
    simp only [trendScorePass, applyEMASmoothing, EMA_ALPHA]
    norm_num

/-- C1 witness: a pass with stored history 40 smooths the raw score by the
0.3 / 0.7 exponential moving average. -/
theorem C1_trend_pass_witness :
    (trendScorePass 100 90 80 70 60 (some 40)).smoothedScore =
      jsRound (3/10 * ((trendScorePass 100 90 80 70 60 (some 40)).rawScore : ℚ) + 7/10 * 40) :=
  (C1_trend_pass 100 90 80 70 60 (some 40)).2.2.1 40 rfl

/-! ## Claim C4 -/

/-- With zero counted data points every per-source guard is false. -/
lemma flags_of_dataPoints_zero (s : Sources) (h : confidenceDataPoints s = 0) :
    gtHasData s = false ∧ listHasData s.googleNewsRss = false ∧
    listHasData s.newsData = false ∧ listHasData s.serpResults = false ∧
    listHasData s.reddit = false ∧ listHasData s.hackerNews = false ∧
    rssHasData s = false := by
  unfold confidenceDataPoints at h
  split_ifs at h <;> simp_all

/-- C4: the confidence is an integer in `[10, 98]` for every input, exactly
10 with zero contributing data points, and the three multipliers are the
claimed affine functions of `dataPoints / maxSources` (with 7 supported
source types) and of the coherence score. -/
theorem C4_confidence (s : Sources) (coherenceScore : ℚ) :
    (10 ≤ (calculateConfidenceV2 s coherenceScore).confidence ∧
      (calculateConfidenceV2 s coherenceScore).confidence ≤ 98) ∧
    (confidenceDataPoints s = 0 →
      (calculateConfidenceV2 s coherenceScore).confidence = 10) ∧
    (calculateConfidenceV2 s coherenceScore).dataPoints = confidenceDataPoints s ∧
    freshnessMultiplier (confidenceDataPoints s) =
      4/10 + 6/10 * ((confidenceDataPoints s : ℚ) / (maxDataPoints : ℚ)) ∧
    sampleSizeMultiplier (confidenceDataPoints s) =
      3/10 + 7/10 * min 1 ((confidenceDataPoints s : ℚ) / (maxDataPoints : ℚ)) ∧
    agreementMultiplier coherenceScore = 75/100 + 40/100 * (coherenceScore / 100) ∧
    maxDataPoints = 7 := by
  refine ⟨?_, fun h => ?_, rfl, rfl, rfl, rfl, rfl⟩
  · show 10 ≤ jsRound _ ∧ jsRound _ ≤ 98
    set c : ℚ := baseConfidence s * freshnessMultiplier (confidenceDataPoints s) *
      sampleSizeMultiplier (confidenceDataPoints s) * agreementMultiplier coherenceScore with hc
    have hlo : (10 : ℚ)/100 ≤ min (98/100) (max (10/100) c) :=
      le_min (by norm_num) (le_max_left _ _)
    have hhi : min ((98 : ℚ)/100) (max (10/100) c) ≤ 98/100 := min_le_left _ _
    constructor
    · rw [jsRound]
      rw [Int.le_floor]
      push_cast
      linarith
    · calc jsRound (min ((98 : ℚ)/100) (max (10/100) c) * 100)
          ≤ ⌊(197/2 : ℚ)⌋ := Int.floor_le_floor (by linarith)
        _ = 98 := by norm_num
  · obtain ⟨h1, h2, h3, h4, h5, h6, h7⟩ := flags_of_dataPoints_zero s h
    show jsRound _ = 10
    have hbase : baseConfidence s = 0 := by
      unfold baseConfidence
      rw [h1, h2, h3, h4, h5, h6, h7]
      norm_num
    rw [hbase]
    norm_num [jsRound]

/-- C4 witness: with no sources at all the data-point count is zero and the
confidence evaluates to exactly 10. -/
theorem C4_confidence_witness :
    (calculateConfidenceV2 ⟨none, [], [], [], [], [], none⟩ 0).confidence = 10 :=
  (C4_confidence ⟨none, [], [], [], [], [], none⟩ 0).2.1 rfl

/-! ## Claim C5 -/

/-- The level selection of `calculateCoherenceScore` agrees with the claimed
thresholds read off the clamped returned score. -/
lemma coherenceLevel_iff (u : ℤ) :
    ((if 75 ≤ u then "High" else if 50 ≤ u then "Medium"
        else if 25 ≤ u then "Low" else "Noise") = "High" ↔ 75 ≤ clampInt u) ∧
    ((if 75 ≤ u then "High" else if 50 ≤ u then "Medium"
        else if 25 ≤ u then "Low" else "Noise") = "Medium" ↔
      50 ≤ clampInt u ∧ clampInt u < 75) ∧
    ((if 75 ≤ u then "High" else if 50 ≤ u then "Medium"
        else if 25 ≤ u then "Low" else "Noise") = "Low" ↔
      25 ≤ clampInt u ∧ clampInt u < 50) ∧
    ((if 75 ≤ u then "High" else if 50 ≤ u then "Medium"
        else if 25 ≤ u then "Low" else "Noise") = "Noise" ↔ clampInt u < 25) := by
  have e75 := le_clampInt_iff 75 u (by norm_num) (by norm_num)
  have e50 := le_clampInt_iff 50 u (by norm_num) (by norm_num)
  have e25 := le_clampInt_iff 25 u (by norm_num) (by norm_num)
  split_ifs with h1 h2 h3 <;> refine ⟨?_, ?_, ?_, ?_⟩ <;> simp_all <;> omega

/-- C5: with zero sources present the coherence scorer returns score 0,
level Noise and empty factors; otherwise the returned score is the rounded
weighted sum of the four sub-factors clamped to `[0, 100]`, and the level
label matches the claimed threshold bands of that returned score. -/
theorem C5_coherence (s : Sources) :
    (sourceSignals s = [] → calculateCoherenceScore s = ⟨0, "Noise", none⟩) ∧
    (sourceSignals s ≠ [] →
      (calculateCoherenceScore s).coherenceScore =
        clampInt (jsRound (30/100 * directionAgreementOf (sourceSignals s) +
          25/100 * magnitudeConsistencyOf (sourceSignals s) +
          25/100 * temporalConsistencyOf s +
          20/100 * termCorrelationOf s (sourceSignals s))) ∧
      ((calculateCoherenceScore s).coherenceLevel = "High" ↔
        75 ≤ (calculateCoherenceScore s).coherenceScore) ∧
      ((calculateCoherenceScore s).coherenceLevel = "Medium" ↔
        50 ≤ (calculateCoherenceScore s).coherenceScore ∧
          (calculateCoherenceScore s).coherenceScore < 75) ∧
      ((calculateCoherenceScore s).coherenceLevel = "Low" ↔
        25 ≤ (calculateCoherenceScore s).coherenceScore ∧
          (calculateCoherenceScore s).coherenceScore < 50) ∧
      ((calculateCoherenceScore s).coherenceLevel = "Noise" ↔
        (calculateCoherenceScore s).coherenceScore < 25)) := by
  constructor
  · intro h
    simp only [calculateCoherenceScore]
    rw [if_pos h]
  · intro h
    simp only [calculateCoherenceScore]
    rw [if_neg h]
    exact ⟨rfl, coherenceLevel_iff _⟩

/-- C5 witness: a single news source with 5 results of total recency weight
4 yields a nonempty signal list, and the level-threshold equivalence holds
for it (its score evaluates to 75, level High). -/
theorem C5_coherence_witness :
    ((calculateCoherenceScore ⟨none, [⟨5, 4⟩], [], [], [], [], none⟩).coherenceLevel = "High" ↔
      75 ≤ (calculateCoherenceScore ⟨none, [⟨5, 4⟩], [], [], [], [], none⟩).coherenceScore) ∧
    calculateCoherenceScore ⟨none, [], [], [], [], [], none⟩ = ⟨0, "Noise", none⟩ :=
  ⟨((C5_coherence ⟨none, [⟨5, 4⟩], [], [], [], [], none⟩).2 (by decide)).2.1,
    (C5_coherence ⟨none, [], [], [], [], [], none⟩).1 rfl⟩

/-! ## Claim C6 (corrected)

The per-text scorer behaves as claimed, but the batch variant does not
average the per-title scores of the whole input list: articles whose title
is falsy (empty) are skipped entirely (`if (title)`), not scored as the
neutral 50 that `calculateSentiment` would assign them. -/

/-- The word good scores 80: one token, valence 3, `50 + (3/1)*10`. -/
lemma sent_good : calculateSentiment (.str "good") = 80 := by
  have ht : sentTokens "good" = ["good"] := by decide
  have hl : AFINN_WORDS.lookup "good" = some 3 := by decide
  simp only [calculateSentiment, ht, List.filterMap_cons, hl, List.filterMap_nil]
  norm_num [jsRound]

/-- The empty string scores the neutral 50 (no tokens). -/
lemma sent_empty : calculateSentiment (.str "") = 50 := by
  have ht : sentTokens "" = [] := by decide
  simp [calculateSentiment, ht]

/-- C6 counterexample: on the title list [good, empty] the code returns 80
(the empty title is skipped), while the claimed arithmetic mean of the
per-title scores, `round((80 + 50) / 2)`, is 65. -/
theorem C6_batch_mean_counterexample :
    (calculateArticleSentiment [⟨"good"⟩, ⟨""⟩]).score = 80 ∧
    jsRound (((calculateSentiment (.str "good") : ℚ) +
      (calculateSentiment (.str "") : ℚ)) / 2) = 65 ∧
    (80 : ℤ) ≠ 65 := by
  refine ⟨?_, ?_, by norm_num⟩
  · have hf : ((([⟨"good"⟩, ⟨""⟩] : List SArticle)).map (fun a => a.title)).filter
        (fun t => t ≠ "") = ["good"] := by decide
    have hne : ([⟨"good"⟩, ⟨""⟩] : List SArticle) ≠ [] := by decide
    simp only [calculateArticleSentiment, hf, if_neg hne]
    norm_num [sent_good, jsRound]
  · rw [sent_good, sent_empty]
    norm_num [jsRound]

/-- The batch classifier labels agree with the claimed breakpoint bands. -/
lemma classifySentiment_iff (n : ℤ) :
    (classifySentiment n = "Negative" ↔ n ≤ 30) ∧
    (classifySentiment n = "Somewhat Negative" ↔ 30 < n ∧ n ≤ 45) ∧
    (classifySentiment n = "Neutral" ↔ 45 < n ∧ n ≤ 55) ∧
    (classifySentiment n = "Somewhat Positive" ↔ 55 < n ∧ n ≤ 70) ∧
    (classifySentiment n = "Positive" ↔ 70 < n) := by
  unfold classifySentiment
  split_ifs with h1 h2 h3 h4 <;> refine ⟨?_, ?_, ?_, ?_, ?_⟩ <;> simp_all <;> omega

/-- C6 amended: the per-text scorer returns 50 for non-string input, token-free
text and lexicon-miss text, and otherwise the clamped rounded
`50 + (sum/tokens)*10`; the batch variant averages the per-title scores over
the articles whose title is nonempty (skipping empty titles), rounds, and
classifies by the claimed breakpoints; an empty list, or a list with no
nonempty title, yields score 50, Neutral, zero analyzed. -/
theorem C6_sentiment_amended :
    calculateSentiment .nonString = 50 ∧
    (∀ s, sentTokens s = [] → calculateSentiment (.str s) = 50) ∧
    (∀ s, (sentTokens s).filterMap (fun w => AFINN_WORDS.lookup w) = [] →
      calculateSentiment (.str s) = 50) ∧
    (∀ s, (sentTokens s).filterMap (fun w => AFINN_WORDS.lookup w) ≠ [] →
      calculateSentiment (.str s) = min 100 (max 0 (jsRound (50 +
        ((((sentTokens s).filterMap (fun w => AFINN_WORDS.lookup w)).sum : ℚ) /
          ((sentTokens s).length : ℚ)) * 10)))) ∧
    (∀ arts : List SArticle,
      ((arts.map (fun a => a.title)).filter (fun t => t ≠ "")) ≠ [] →
      (calculateArticleSentiment arts).score =
        jsRound (((((arts.map (fun a => a.title)).filter (fun t => t ≠ "")).map
            (fun t => calculateSentiment (.str t))).sum : ℚ) /
          ((((arts.map (fun a => a.title)).filter (fun t => t ≠ ""))).length : ℚ)) ∧
      (calculateArticleSentiment arts).classification =
        classifySentiment (calculateArticleSentiment arts).score ∧
      (calculateArticleSentiment arts).articlesAnalyzed =
        ((arts.map (fun a => a.title)).filter (fun t => t ≠ "")).length) ∧
    (∀ arts : List SArticle,
      ((arts.map (fun a => a.title)).filter (fun t => t ≠ "")) = [] →
      calculateArticleSentiment arts = ⟨50, "Neutral", 0⟩) ∧
    (∀ n : ℤ, (classifySentiment n = "Negative" ↔ n ≤ 30) ∧
      (classifySentiment n = "Somewhat Negative" ↔ 30 < n ∧ n ≤ 45) ∧
      (classifySentiment n = "Neutral" ↔ 45 < n ∧ n ≤ 55) ∧
      (classifySentiment n = "Somewhat Positive" ↔ 55 < n ∧ n ≤ 70) ∧
      (classifySentiment n = "Positive" ↔ 70 < n)) := by
  refine ⟨rfl, fun s h => ?_, fun s h => ?_, fun s h => ?_, fun arts h => ?_,
    fun arts h => ?_, classifySentiment_iff⟩
  · simp [calculateSentiment, h]
  · simp only [calculateSentiment, h]
    split_ifs <;> rfl
  · have hw : sentTokens s ≠ [] := by
      intro he
      rw [he] at h
      exact h rfl
    simp only [calculateSentiment]
    rw [if_neg hw, if_neg h]
  · have harts : arts ≠ [] := by
      intro he
      subst he
      exact h rfl
    simp only [calculateArticleSentiment]
    rw [if_neg harts, if_neg h]
    exact ⟨rfl, rfl, rfl⟩
  · simp only [calculateArticleSentiment, h]
    split_ifs <;> rfl

/-- C6 amended witness: the per-text formula applied to the word good, whose
token list has a lexicon match. -/
theorem C6_sentiment_amended_witness :
    calculateSentiment (.str "good") = min 100 (max 0 (jsRound (50 +
      ((((sentTokens "good").filterMap (fun w => AFINN_WORDS.lookup w)).sum : ℚ) /
        ((sentTokens "good").length : ℚ)) * 10))) :=
  C6_sentiment_amended.2.2.2.1 "good" (by decide)

/-! ## Claim C7 (corrected)

The deduplicator does keep at most as many articles as it received, in
first-seen order, and merges URL-duplicates with a source union - but its
tracking-parameter list names exactly five utm_ parameters
(utm_source, utm_medium, utm_campaign, utm_term, utm_content), not the
whole utm_ family the claim describes: URLs differing only in utm_id keep
both articles. -/

/-- Merging a source name does not change the stored article. -/
lemma mergeSourcesInto_article (src : String) (e : DedupEntry) :
    (mergeSourcesInto src e).article = e.article := by
  unfold mergeSourcesInto
  split_ifs <;> rfl

/-- Updating an entry in place never changes the article sequence. -/
lemma updateFirst_map_article (p : DedupEntry → Bool) (src : String) :
    ∀ es : List DedupEntry,
      (updateFirst p (mergeSourcesInto src) es).map DedupEntry.article =
        es.map DedupEntry.article := by
  intro es
  induction es with
  | nil => rfl
  | cons e es ih =>
    unfold updateFirst
    split_ifs with hpe
    · simp [mergeSourcesInto_article]
    · simp only [List.map_cons, ih]

/-- One loop iteration either merges (articles unchanged) or appends the new
article at the end. -/
lemma dedupStep_map_article (th : ℚ) (entries : List DedupEntry) (a : DArticle) :
    (dedupStep th entries a).map DedupEntry.article = entries.map DedupEntry.article ∨
    (dedupStep th entries a).map DedupEntry.article =
      entries.map DedupEntry.article ++ [a] := by
  simp only [dedupStep]
  split_ifs with h1 h2
  · exact Or.inl (updateFirst_map_article _ _ _)
  · exact Or.inl (updateFirst_map_article _ _ _)
  · right
    simp
  · right
    simp

/-- The article sequence surviving the fold is a subsequence of the kept
prefix followed by the remaining input. -/
lemma dedup_fold_sublist (th : ℚ) :
    ∀ (arts : List DArticle) (entries : List DedupEntry),
      ((arts.foldl (dedupStep th) entries).map DedupEntry.article).Sublist
        ((entries.map DedupEntry.article) ++ arts) := by
  intro arts
  induction arts with
  | nil =>
    intro entries
    simp
  | cons a arts ih =>
    intro entries
    rw [List.foldl_cons]
    have h := ih (dedupStep th entries a)
    rcases dedupStep_map_article th entries a with hc | hc
    · rw [hc] at h
      exact h.trans (List.Sublist.append_left (List.sublist_cons_self a arts) _)
    · rw [hc, List.append_assoc] at h
      simpa using h

/-- The titles alpha and beta share no tokens: similarity 0. -/
lemma sim_beta_alpha : calculateTitleSimilarity "beta" "alpha" = 0 := by
  unfold calculateTitleSimilarity
  rw [if_neg (by decide), if_neg (by decide)]
  have h0 : (((titleTokens "beta").dedup).filter
      (fun w => ((titleTokens "alpha").dedup).contains w)).length = 0 := by decide
  rw [h0]
  simp

/-- C7 counterexample: two articles whose URLs agree after stripping the
claimed utm_ family (they differ only in utm_id) and whose titles are
dissimilar stay two separate output articles: the code only strips five
fixed utm_ parameter names. -/
theorem C7_dedup_counterexample :
    claimedNormalizeUrl (some ⟨"https://x.com/p", [("utm_id", "1")]⟩) =
      claimedNormalizeUrl (some ⟨"https://x.com/p", [("utm_id", "2")]⟩) ∧
    claimedNormalizeUrl (some ⟨"https://x.com/p", [("utm_id", "1")]⟩) ≠ "" ∧
    (deduplicateArticles DEFAULT_SIMILARITY_THRESHOLD
      [⟨some ⟨"https://x.com/p", [("utm_id", "1")]⟩, "alpha", "s1"⟩,
       ⟨some ⟨"https://x.com/p", [("utm_id", "2")]⟩, "beta", "s2"⟩]).deduplicatedCount =
      2 := by
  refine ⟨by decide, by decide, ?_⟩
  have h1 : dedupStep DEFAULT_SIMILARITY_THRESHOLD []
      ⟨some ⟨"https://x.com/p", [("utm_id", "1")]⟩, "alpha", "s1"⟩ =
      [⟨⟨some ⟨"https://x.com/p", [("utm_id", "1")]⟩, "alpha", "s1"⟩,
        some (normalizeUrl (some ⟨"https://x.com/p", [("utm_id", "1")]⟩)), ["s1"]⟩] := by
    unfold dedupStep
    rw [if_neg (by simp), if_neg (by simp), if_neg (by decide)]
    rfl
  have hsim : ¬ (DEFAULT_SIMILARITY_THRESHOLD ≤ calculateTitleSimilarity "beta" "alpha") := by
    rw [sim_beta_alpha]
    norm_num [DEFAULT_SIMILARITY_THRESHOLD]
  have h2 : dedupStep DEFAULT_SIMILARITY_THRESHOLD
      [⟨⟨some ⟨"https://x.com/p", [("utm_id", "1")]⟩, "alpha", "s1"⟩,
        some (normalizeUrl (some ⟨"https://x.com/p", [("utm_id", "1")]⟩)), ["s1"]⟩]
      ⟨some ⟨"https://x.com/p", [("utm_id", "2")]⟩, "beta", "s2"⟩ =
      [⟨⟨some ⟨"https://x.com/p", [("utm_id", "1")]⟩, "alpha", "s1"⟩,
        some (normalizeUrl (some ⟨"https://x.com/p", [("utm_id", "1")]⟩)), ["s1"]⟩,
       ⟨⟨some ⟨"https://x.com/p", [("utm_id", "2")]⟩, "beta", "s2"⟩,
        some (normalizeUrl (some ⟨"https://x.com/p", [("utm_id", "2")]⟩)), ["s2"]⟩] := by
    unfold dedupStep
    rw [if_neg (fun hc => absurd hc.2 (by decide)),
      if_neg (by simp [List.any_cons, List.any_nil, decide_eq_true_eq, hsim]),
      if_neg (by decide)]
    rfl
  unfold deduplicateArticles
  simp only [List.foldl_cons, List.foldl_nil, h1, h2]
  rfl

/-- C7 amended: the deduplicated count never exceeds the original count, the
output articles are a subsequence of the input (first-seen order), and two
articles whose URLs normalize identically (lowercasing plus stripping of
utm_source, utm_medium, utm_campaign, utm_term, utm_content, ref, source,
fbclid, gclid and msclkid) and nonemptily merge into one output article
carrying both source names. -/
theorem C7_dedup_amended :
    (∀ (th : ℚ) (arts : List DArticle),
      (deduplicateArticles th arts).deduplicatedCount ≤
        (deduplicateArticles th arts).originalCount) ∧
    (∀ (th : ℚ) (arts : List DArticle),
      (((deduplicateArticles th arts).articles).map DedupEntry.article).Sublist arts) ∧
    (∀ (th : ℚ) (a b : DArticle),
      normalizeUrl a.url = normalizeUrl b.url → normalizeUrl a.url ≠ "" →
      b.source ≠ "" → b.source ≠ a.source →
      (deduplicateArticles th [a, b]).articles =
        [⟨a, some (normalizeUrl a.url), [a.source, b.source]⟩] ∧
      (deduplicateArticles th [a, b]).deduplicatedCount = 1) := by
  have horder : ∀ (th : ℚ) (arts : List DArticle),
      (((deduplicateArticles th arts).articles).map DedupEntry.article).Sublist arts := by
    intro th arts
    have h := dedup_fold_sublist th arts []
    simpa using h
  refine ⟨fun th arts => ?_, horder, fun th a b heq hne hbs hdist => ?_⟩
  · have h := (horder th arts).length_le
    rw [List.length_map] at h
    exact h
  · have h1 : dedupStep th [] a = [⟨a, some (normalizeUrl a.url), [a.source]⟩] := by
      unfold dedupStep
      rw [if_neg (by simp), if_neg (by simp), if_neg hne]
      rfl
    have hkey : ((⟨a, some (normalizeUrl a.url), [a.source]⟩ : DedupEntry).key ==
        some (normalizeUrl b.url)) = true := by
      rw [← heq]
      exact beq_self_eq_true _
    have h2 : dedupStep th [⟨a, some (normalizeUrl a.url), [a.source]⟩] b =
        [⟨a, some (normalizeUrl a.url), [a.source, b.source]⟩] := by
      unfold dedupStep
      rw [if_pos ⟨by rw [← heq]; exact hne, by simp [List.any_cons, List.any_nil, hkey]⟩]
      unfold updateFirst
      rw [if_pos hkey]
      unfold mergeSourcesInto
      rw [if_pos ⟨hbs, by simp [List.contains_cons, List.contains_nil, beq_iff_eq, hdist]⟩]
      rfl
    constructor
    · show List.foldl (dedupStep th) [] [a, b] = _
      rw [List.foldl_cons, List.foldl_cons, List.foldl_nil, h1, h2]
    · show (List.foldl (dedupStep th) [] [a, b]).length = 1
      rw [List.foldl_cons, List.foldl_cons, List.foldl_nil, h1, h2]
      rfl

/-- C7 amended witness: two concrete articles identical up to a utm_source
parameter merge into one entry carrying both source names. -/
theorem C7_dedup_amended_witness :
    (deduplicateArticles DEFAULT_SIMILARITY_THRESHOLD
      [⟨some ⟨"https://x.com/p", [("utm_source", "tw")]⟩, "alpha", "s1"⟩,
       ⟨some ⟨"https://x.com/p", []⟩, "beta", "s2"⟩]).articles =
      [⟨⟨some ⟨"https://x.com/p", [("utm_source", "tw")]⟩, "alpha", "s1"⟩,
        some (normalizeUrl (some ⟨"https://x.com/p", [("utm_source", "tw")]⟩)),
        ["s1", "s2"]⟩] ∧
    (deduplicateArticles DEFAULT_SIMILARITY_THRESHOLD
      [⟨some ⟨"https://x.com/p", [("utm_source", "tw")]⟩, "alpha", "s1"⟩,
       ⟨some ⟨"https://x.com/p", []⟩, "beta", "s2"⟩]).deduplicatedCount = 1 :=
  C7_dedup_amended.2.2 DEFAULT_SIMILARITY_THRESHOLD
    ⟨some ⟨"https://x.com/p", [("utm_source", "tw")]⟩, "alpha", "s1"⟩
    ⟨some ⟨"https://x.com/p", []⟩, "beta", "s2"⟩
    (by decide) (by decide) (by decide) (by decide)

/-! ## Claim C9 -/

/-- The sort comparator is transitive. -/
lemma recLE_trans : ∀ a b c : Rec, recLE a b = true → recLE b c = true →
    recLE a c = true := by
  intro a b c
  simp only [recLE, decide_eq_true_eq]
  omega

/-- The sort comparator is total. -/
lemma recLE_total : ∀ a b : Rec, (recLE a b || recLE b a) = true := by
  intro a b
  simp only [recLE, Bool.or_eq_true, decide_eq_true_eq]
  omega

/-- Stability: sorting does not change the subsequence of any fixed tier. -/
lemma mergeSort_filter_eq (recs : List Rec) (p : Rec → Bool)
    (hp : ∀ a b : Rec, p a = true → p b = true → recLE a b = true) :
    (recs.mergeSort recLE).filter p = recs.filter p := by
  have hself : (recs.filter p).filter p = recs.filter p :=
    List.filter_eq_self.mpr (fun a ha => List.of_mem_filter ha)
  have hsub : ((recs.filter p).filter p).Sublist ((recs.mergeSort recLE).filter p) :=
    List.Sublist.filter p
      (List.sublist_mergeSort recLE_trans recLE_total
        (List.pairwise_of_forall_mem_list
          (fun a ha b hb => hp a b (List.of_mem_filter ha) (List.of_mem_filter hb)))
        (List.filter_sublist recs))
  rw [hself] at hsub
  have hlen : ((recs.mergeSort recLE).filter p).length = (recs.filter p).length :=
    ((List.mergeSort_perm recs recLE).filter p).length_eq
  exact (hsub.eq_of_length hlen.symm).symm

/-- A priority-sorted list is its high entries, then medium, then low. -/
lemma sorted_partition (M : List Rec)
    (h : M.Pairwise (fun a b => recLE a b = true)) :
    M = M.filter (fun r => r.priority == RecPriority.high) ++
        M.filter (fun r => r.priority == RecPriority.medium) ++
        M.filter (fun r => r.priority == RecPriority.low) := by
  induction M with
  | nil => rfl
  | cons x t ih =>
    obtain ⟨hx, ht⟩ := List.pairwise_cons.mp h
    have iht := ih ht
    have hord : ∀ y ∈ t, priorityOrder x.priority ≤ priorityOrder y.priority := by
      intro y hy
      have hxy := hx y hy
      simp only [recLE, decide_eq_true_eq] at hxy
      exact hxy
    cases hp : x.priority with
    | high =>
      rw [List.filter_cons_of_pos (by simp only [hp]; decide),
        List.filter_cons_of_neg (by simp only [hp]; decide),
        List.filter_cons_of_neg (by simp only [hp]; decide)]
      simp only [List.cons_append]
      rw [← iht]
    | medium =>
      have hfh : t.filter (fun r => r.priority == RecPriority.high) = [] := by
        rw [List.filter_eq_nil_iff]
        intro y hy
        have hy2 := hord y hy
        rw [hp] at hy2
        cases hyp : y.priority with
        | high => rw [hyp] at hy2; exact absurd hy2 (by decide)
        | medium => decide
        | low => decide
      rw [hfh] at iht
      simp only [List.nil_append] at iht
      rw [List.filter_cons_of_neg (by simp only [hp]; decide),
        List.filter_cons_of_pos (by simp only [hp]; decide),
        List.filter_cons_of_neg (by simp only [hp]; decide), hfh]
      simp only [List.nil_append, List.cons_append]
      rw [← iht]
    | low =>
      have hfh : t.filter (fun r => r.priority == RecPriority.high) = [] := by
        rw [List.filter_eq_nil_iff]
        intro y hy
        have hy2 := hord y hy
        rw [hp] at hy2
        cases hyp : y.priority with
        | high => rw [hyp] at hy2; exact absurd hy2 (by decide)
        | medium => decide
        | low => decide
      have hfm : t.filter (fun r => r.priority == RecPriority.medium) = [] := by
        rw [List.filter_eq_nil_iff]
        intro y hy
        have hy2 := hord y hy
        rw [hp] at hy2
        cases hyp : y.priority with
        | high => rw [hyp] at hy2; exact absurd hy2 (by decide)
        | medium => rw [hyp] at hy2; exact absurd hy2 (by decide)
        | low => decide
      rw [hfh, hfm] at iht
      simp only [List.nil_append] at iht
      rw [List.filter_cons_of_neg (by simp only [hp]; decide),
        List.filter_cons_of_neg (by simp only [hp]; decide),
        List.filter_cons_of_pos (by simp only [hp]; decide), hfh, hfm]
      simp only [List.nil_append, List.cons_append]
      rw [← iht]

/-- The prioritized output is the stable high/medium/low bucket concatenation
truncated to three entries and annotated with the priority glyphs. -/
lemma prioritize_characterization (recs : List Rec) :
    prioritizeRecommendations recs =
      (((recs.filter (fun r => r.priority == RecPriority.high)) ++
        (recs.filter (fun r => r.priority == RecPriority.medium)) ++
        (recs.filter (fun r => r.priority == RecPriority.low))).take 3).map
        (fun r => ⟨r.priority, r.text, r.isModifier,
          priorityEmoji r.priority ++ " " ++ r.text⟩) := by
  unfold prioritizeRecommendations
  have hM : recs.mergeSort recLE =
      (recs.filter (fun r => r.priority == RecPriority.high)) ++
      (recs.filter (fun r => r.priority == RecPriority.medium)) ++
      (recs.filter (fun r => r.priority == RecPriority.low)) := by
    have hsorted := List.sorted_mergeSort recLE_trans recLE_total recs
    have hpart := sorted_partition _ hsorted
    rw [hpart]
    rw [mergeSort_filter_eq recs _ (fun a b ha hb => by
      unfold recLE
      rw [eq_of_beq ha]
      cases hpb : b.priority <;> decide)]
    rw [mergeSort_filter_eq recs _ (fun a b ha hb => by
      unfold recLE
      rw [eq_of_beq ha, eq_of_beq hb]
      decide)]
    rw [mergeSort_filter_eq recs _ (fun a b ha hb => by
      unfold recLE
      rw [eq_of_beq hb]
      cases hpa : a.priority <;> decide)]
  rw [hM]

/-- C9: the prioritized output is the stable high-medium-low sort truncated
to three glyph-annotated entries; the top recommendation is the first
element, or the fixed fallback on an empty list; at trend score 80 and
coherence 70 the output is exactly three high-priority entries, headed by
the content-creation recommendation. -/
theorem C9_recommendation_engine :
    (∀ recs : List Rec, prioritizeRecommendations recs =
      (((recs.filter (fun r => r.priority == RecPriority.high)) ++
        (recs.filter (fun r => r.priority == RecPriority.medium)) ++
        (recs.filter (fun r => r.priority == RecPriority.low))).take 3).map
        (fun r => ⟨r.priority, r.text, r.isModifier,
          priorityEmoji r.priority ++ " " ++ r.text⟩)) ∧
    topRecommendationOf [] = "No recommendations" ∧
    (∀ (r : FormattedRec) (t : List FormattedRec),
      topRecommendationOf (r :: t) = r.formattedText) ∧
    (∀ confidence sentiment : ℚ, ∀ term : String,
      (prioritizeRecommendations
        (generateActionRecommendations 80 70 confidence sentiment term)).map
          (fun r => r.priority) = [.high, .high, .high] ∧
      topRecommendationOf (prioritizeRecommendations
        (generateActionRecommendations 80 70 confidence sentiment term)) =
        "🔴 Create content about " ++ term ++ " - high trending activity detected") :=
  by
  refine ⟨prioritize_characterization, rfl, fun r t => rfl, fun confidence sentiment term => ?_⟩
  rw [prioritize_characterization]
  unfold generateActionRecommendations
  rw [if_pos (by norm_num : (70 : ℚ) < 80 ∧ (60 : ℚ) < 70)]
  split_ifs <;>
    simp [List.filter_append, List.filter_cons, topRecommendationOf, priorityEmoji] <;>
    rw [← String.append_assoc, ← String.append_assoc,
      show ("🔴 " ++ "Create content about " : String) = "🔴 Create content about " from by decide]

/-- C9 witness: at trend score 80, coherence 70, confidence 50, sentiment 50
and term widget the output is three high-priority entries topped by the
content-creation recommendation. -/
theorem C9_recommendation_engine_witness :
    (prioritizeRecommendations
      (generateActionRecommendations 80 70 50 50 "widget")).map
        (fun r => r.priority) = [.high, .high, .high] ∧
    topRecommendationOf (prioritizeRecommendations
      (generateActionRecommendations 80 70 50 50 "widget")) =
      "🔴 Create content about widget - high trending activity detected" :=
  C9_recommendation_engine.2.2.2 50 50 "widget"

/-! ## Claim C10 -/

/-- C10: the three base buckets are an exclusive if/else-if chain; at
trendScore 80 (above 70), coherence 30 (at most 60), confidence 50 and
sentiment factor 50 no bucket and no modifier fires, the engine returns the
empty list, and the reported top recommendation is the fallback string. -/
theorem C10_bucket_gap :
    generateActionRecommendations 80 30 50 50 "widget" = [] ∧
    (70 : ℚ) < 80 ∧ (30 : ℚ) ≤ 60 ∧
    topRecommendationOf
      (prioritizeRecommendations (generateActionRecommendations 80 30 50 50 "widget")) =
      "No recommendations" := by
  have h : generateActionRecommendations 80 30 50 50 "widget" = [] := by
    norm_num [generateActionRecommendations]
  refine ⟨h, by norm_num, by norm_num, ?_⟩
  rw [h]
  simp [prioritizeRecommendations, topRecommendationOf, List.mergeSort_nil]

end TrendMonitor
